import Mathlib

/-!
Verification of the SMJ mobile client (login screen and price dashboard).
The TypeScript sources are shallowly embedded: JSON response objects become
structures of `Option String` fields (`none` models an absent or null field),
the JavaScript truthiness-based `a || b` fallback on string-typed values
becomes `jsOrS`, and the stateful screen logic becomes explicit state-passing
functions. Timestamps are abstracted to `Nat`.
-/

/-- JavaScript `a || b` where `a` is a possibly-absent string and `b` a
string: an absent value and the empty string are falsy and fall through. -/
def jsOrS : Option String → String → String
  | none, b => b
  | some s, b => if s = "" then b else s

/-- JavaScript truthiness of a possibly-absent string value: a value is
truthy when it is present and not the empty string. -/
def isGiven : Option String → Bool
  | none => false
  | some s => !(s == "")

/-- Whether `pat` occurs as a substring of `s`, mirroring JavaScript
`s.includes(pat)` for the non-empty patterns used by the screens. -/
def hasSubstr (s pat : String) : Bool := (s.splitOn pat).length != 1

/-- A price-endpoint JSON response body: each of the three prices may be
carried under a camelCase or a snake_case key, or be absent. -/
structure PriceResp where
  goldPrice1g : Option String
  gold_price_1g : Option String
  goldPrice8g : Option String
  gold_price_8g : Option String
  silverPrice1g : Option String
  silver_price_1g : Option String
deriving DecidableEq

/-- The normalized snapshot the dashboard stores: three total string
fields, so no field can be undefined. -/
structure PriceSnapshot where
  goldPrice1g : String
  goldPrice8g : String
  silverPrice1g : String
deriving DecidableEq

/-- Embeds the dashboard normalization (part_000 lines 54-59):
`data.goldPrice1g || data.gold_price_1g || "N/A"` and likewise for the
other two prices. -/
def normalizePrice (d : PriceResp) : PriceSnapshot :=
  { goldPrice1g := jsOrS d.goldPrice1g (jsOrS d.gold_price_1g "N/A")
    goldPrice8g := jsOrS d.goldPrice8g (jsOrS d.gold_price_8g "N/A")
    silverPrice1g := jsOrS d.silverPrice1g (jsOrS d.silver_price_1g "N/A") }

/-- The claim side of the normalization contract, written from the spec
words: a field takes the camelCase value from the response, else the
snake_case value, else "N/A", where a value counts as supplied when it is
truthy (present and non-empty, the reading fixed by the falsy-as-absent
normalization invariant). -/
def specField (camel snake : Option String) : String :=
  if isGiven camel then camel.getD ""
  else if isGiven snake then snake.getD ""
  else "N/A"

/-- JavaScript `String.prototype.trim`: strips whitespace from both ends,
written structurally on the character list. -/
def jsTrim (s : String) : String :=
  ⟨((s.data.dropWhile Char.isWhitespace).reverse.dropWhile Char.isWhitespace).reverse⟩

/-- Embeds `validateInputs` (login.tsx lines 24-38): returns the error
message it would set, or `none` when validation passes. The emptiness
checks use the trimmed strings; the length check uses the raw string. -/
def validateInputs (mobileNumber password : String) : Option String :=
  if jsTrim mobileNumber = "" then some "Mobile number is required"
  else if jsTrim password = "" then some "Password is required"
  else if mobileNumber.length < 10 then some "Please enter a valid mobile number"
  else none

/-- Embeds the network gate of `handleLogin` (login.tsx lines 40-48): the
fetch is issued exactly when `validateInputs` returns true. -/
def loginNetworkCalled (mobileNumber password : String) : Bool :=
  (validateInputs mobileNumber password).isNone

/-- A parsed login response body; each of the three loosely-typed fields
may be absent. -/
structure LoginResp where
  status : Option String
  result : Option String
  message : Option String
deriving DecidableEq

/-- Outcome of interpreting a login response: navigate to the dashboard,
or stay and display an error banner. -/
inductive LoginOutcome where
  | navigate
  | showError (msg : String)
deriving DecidableEq

/-- Embeds the success condition of `handleLogin` (login.tsx line 66):
`data.status === "success" || data.result === "success" ||
data.message === "Login successful"`. -/
def loginSuccessCheck (d : LoginResp) : Bool :=
  (d.status == some "success") || (d.result == some "success") ||
    (d.message == some "Login successful")

/-- Embeds the response interpretation of `handleLogin` (login.tsx lines
65-71): `data` falsy or no success signal shows
`data?.message || "Invalid credentials. Please try again."`. -/
def loginInterpret : Option LoginResp → LoginOutcome
  | some d =>
    if loginSuccessCheck d then .navigate
    else .showError (jsOrS d.message "Invalid credentials. Please try again.")
  | none => .showError "Invalid credentials. Please try again."

/-- The claim side of the navigation condition, from the spec words: the
response object is truthy and one of the three fields signals success. -/
def specNavigates : Option LoginResp → Bool
  | some d =>
    (d.status == some "success") || (d.result == some "success") ||
      (d.message == some "Login successful")
  | none => false

/-- The claim side of the failure banner, from the spec words: the
response message field when present (truthy), else the generic
invalid-credentials message. -/
def specShownMessage : Option LoginResp → String
  | some d =>
    if isGiven d.message then d.message.getD ""
    else "Invalid credentials. Please try again."
  | none => "Invalid credentials. Please try again."

/-- The three user-facing error categories of the substring heuristic. -/
inductive ErrCat where
  | network
  | timeout
  | generic
deriving DecidableEq

/-- The classification rule from the spec words: text containing
"Network request failed" or "fetch" is a network error, else text
containing "timeout" is a timeout, else the failure is generic. -/
def specErrCat (msg : String) : ErrCat :=
  if hasSubstr msg "Network request failed" || hasSubstr msg "fetch" then .network
  else if hasSubstr msg "timeout" then .timeout
  else .generic

/-- Embeds the catch branch of `handleLogin` (login.tsx lines 73-81). -/
def loginClassify (msg : String) : String :=
  if hasSubstr msg "Network request failed" || hasSubstr msg "fetch" then
    "Network connection error. Please check your internet connection and try again."
  else if hasSubstr msg "timeout" then
    "Request timeout. Please try again."
  else
    "Login failed. Please check your credentials and try again."

/-- Embeds the catch branch of `fetchPrices` (part_000 lines 64-72). -/
def dashClassify (msg : String) : String :=
  if hasSubstr msg "Network request failed" || hasSubstr msg "fetch" then
    "Network connection error. Please check your internet connection."
  else if hasSubstr msg "timeout" then
    "Request timeout. Please try again."
  else
    "Failed to fetch prices. Please try again."

/-- The login screen message for each error category. -/
def loginMsgOf : ErrCat → String
  | .network => "Network connection error. Please check your internet connection and try again."
  | .timeout => "Request timeout. Please try again."
  | .generic => "Login failed. Please check your credentials and try again."

/-- The dashboard message for each error category. -/
def dashMsgOf : ErrCat → String
  | .network => "Network connection error. Please check your internet connection."
  | .timeout => "Request timeout. Please try again."
  | .generic => "Failed to fetch prices. Please try again."

/-- The `priceData` React state of the dashboard (the `PriceData`
interface): three optional camelCase fields, initially all absent. -/
structure PriceData where
  goldPrice1g : Option String
  goldPrice8g : Option String
  silverPrice1g : Option String
deriving DecidableEq

/-- The initial `useState<PriceData>({})` value. -/
def initialPriceData : PriceData := ⟨none, none, none⟩

/-- Storing a normalized snapshot into the `priceData` state. -/
def toPriceData (s : PriceSnapshot) : PriceData :=
  ⟨some s.goldPrice1g, some s.goldPrice8g, some s.silverPrice1g⟩

/-- The local React state of the dashboard screen; `lastUpdated` is an
abstract timestamp. -/
structure DashState where
  priceData : PriceData
  loading : Bool
  refreshing : Bool
  error : String
  lastUpdated : Option Nat
deriving DecidableEq

/-- The result of one `fetch` of the price endpoint: a thrown transport
error with its message, or a response with its `ok` flag, HTTP status and
parsed JSON body (`none` models a falsy body such as `null`). -/
inductive FetchResult where
  | fail (msg : String)
  | resp (ok : Bool) (status : Nat) (body : Option PriceResp)
deriving DecidableEq

/-- Embeds one complete run of `fetchPrices` (part_000 lines 28-76) with
fetch result `r` at time `now`: set the refreshing or loading flag, clear
the error, then either store the normalized snapshot and the timestamp,
or set the error message (non-ok responses throw the HTTP error message
into the catch branch); the finally block clears both flags. -/
def fetchPricesStep (isRefresh : Bool) (r : FetchResult) (now : Nat)
    (s : DashState) : DashState :=
  let s0 := if isRefresh then { s with refreshing := true } else { s with loading := true }
  let s1 := { s0 with error := "" }
  let s2 :=
    match r with
    | .fail m => { s1 with error := dashClassify m }
    | .resp ok st body =>
      if !ok then { s1 with error := dashClassify ("HTTP error! status: " ++ toString st) }
      else
        match body with
        | some d =>
          { s1 with priceData := toPriceData (normalizePrice d), lastUpdated := some now }
        | none => { s1 with error := "No price data available" }
  { s2 with loading := false, refreshing := false }

/-- The loading and refreshing flags of the dashboard. -/
structure Flags where
  loading : Bool
  refreshing : Bool
deriving DecidableEq

/-- Flag events of the dashboard screen: `startFetch r` is the opening of
`fetchPrices(r)` (part_000 lines 29-33), `finishFetch` is its finally
block (lines 73-76). Overlapping fetches interleave these events. -/
inductive DashEvent where
  | startFetch (isRefresh : Bool)
  | finishFetch
deriving DecidableEq

/-- The effect of one flag event, from the source: a refresh start sets
only `refreshing`, an ordinary start sets only `loading`, and a finish
clears both. -/
def flagsStep (s : Flags) : DashEvent → Flags
  | .startFetch true => { s with refreshing := true }
  | .startFetch false => { s with loading := true }
  | .finishFetch => ⟨false, false⟩

/-- The flag state after an event trace, from `useState(false)` for both
flags. -/
def runFlags (es : List DashEvent) : Flags :=
  es.foldl flagsStep ⟨false, false⟩

/-- Whether at most one of the two flags is set. -/
def atMostOneFlag (s : Flags) : Bool := !(s.loading && s.refreshing)

/-- Whether a trace is non-overlapping given `n` fetches currently in
flight: every start happens with no fetch in flight and every finish ends
the one in-flight fetch. -/
def seqOK : List DashEvent → Nat → Bool
  | [], _ => true
  | DashEvent.startFetch _ :: es, n => (n == 0) && seqOK es 1
  | DashEvent.finishFetch :: es, n => (n == 1) && seqOK es 0

/-- Semantics of the platform interval timer: `setInterval` with period
`periodMs` fires at every positive multiple of the period, and
`clearInterval` at time `u` stops all later firings. -/
def setIntervalFires (periodMs : Nat) (clearedAt : Option Nat) (t : Nat) : Bool :=
  (0 < t) && (t % periodMs == 0) &&
    (match clearedAt with
     | none => true
     | some u => decide (t < u))

/-- Embeds the mount effect of the dashboard (part_000 lines 87-96): one
immediate `fetchPrices()` at mount time 0, plus a 600000 ms interval
timer cleared at unmount; `dashboardFetchAt u t` says whether a fetch
call is issued `t` ms after mount when the screen unmounts at `u` (or
never, for `u = none`). -/
def dashboardFetchAt (unmountAt : Option Nat) (t : Nat) : Bool :=
  (t == 0) || setIntervalFires 600000 unmountAt t

/-- Embeds a price card display value (part_000 lines 167-188):
`priceData.goldPrice1g || "0"` and likewise for the other two cards. -/
def displayedPrice (o : Option String) : String := jsOrS o "0"

/-- The three card price strings rendered from a `priceData` state. -/
def renderedPrices (pd : PriceData) : String × String × String :=
  (displayedPrice pd.goldPrice1g, displayedPrice pd.goldPrice8g,
    displayedPrice pd.silverPrice1g)

lemma jsOrS_none (b : String) : jsOrS none b = b := rfl

lemma jsOrS_empty (b : String) : jsOrS (some "") b = b := by
  simp [jsOrS]

lemma field_eq_specField (c s : Option String) :
    jsOrS c (jsOrS s "N/A") = specField c s := by
  cases c with
  | none =>
    cases s with
    | none => rfl
    | some a =>
      by_cases h : a = "" <;> simp [jsOrS, specField, isGiven, h]
  | some a =>
    cases s with
    | none =>
      by_cases h : a = "" <;> simp [jsOrS, specField, isGiven, h]
    | some b =>
      by_cases h : a = "" <;> by_cases h2 : b = "" <;>
        simp [jsOrS, specField, isGiven, h, h2]

/-- C1: every price response normalizes to a snapshot with exactly the
three string fields (total by the type of `PriceSnapshot`), each taking
the camelCase value, else the snake_case value, else "N/A"; and the
concrete response with gold_price_1g = "6200" and goldPrice8g = "49600"
normalizes to ("6200", "49600", "N/A"). -/
theorem price_normalization_contract :
    (∀ d : PriceResp,
      normalizePrice d =
        { goldPrice1g := specField d.goldPrice1g d.gold_price_1g
          goldPrice8g := specField d.goldPrice8g d.gold_price_8g
          silverPrice1g := specField d.silverPrice1g d.silver_price_1g }) ∧
    normalizePrice
        { goldPrice1g := none, gold_price_1g := some "6200"
          goldPrice8g := some "49600", gold_price_8g := none
          silverPrice1g := none, silver_price_1g := none } =
      { goldPrice1g := "6200", goldPrice8g := "49600", silverPrice1g := "N/A" } := by
  refine ⟨fun d => ?_, by decide⟩
  simp [normalizePrice, field_eq_specField]

/-- C5: a response carrying the prices only under snake_case keys
normalizes to the same snapshot as the response carrying the same values
only under the camelCase keys. -/
theorem snake_camel_aliasing_transparent (g1 g8 s1 : Option String) :
    normalizePrice
        { goldPrice1g := none, gold_price_1g := g1
          goldPrice8g := none, gold_price_8g := g8
          silverPrice1g := none, silver_price_1g := s1 } =
      normalizePrice
        { goldPrice1g := g1, gold_price_1g := none
          goldPrice8g := g8, gold_price_8g := none
          silverPrice1g := s1, silver_price_1g := none } := rfl

/-- C10: normalization treats a present-but-falsy field value (the empty
string) exactly like an absent field, for each of the six response keys. -/
theorem falsy_field_like_absent (r : PriceResp) :
    normalizePrice { r with goldPrice1g := some "" } =
      normalizePrice { r with goldPrice1g := none } ∧
    normalizePrice { r with gold_price_1g := some "" } =
      normalizePrice { r with gold_price_1g := none } ∧
    normalizePrice { r with goldPrice8g := some "" } =
      normalizePrice { r with goldPrice8g := none } ∧
    normalizePrice { r with gold_price_8g := some "" } =
      normalizePrice { r with gold_price_8g := none } ∧
    normalizePrice { r with silverPrice1g := some "" } =
      normalizePrice { r with silverPrice1g := none } ∧
    normalizePrice { r with silver_price_1g := some "" } =
      normalizePrice { r with silver_price_1g := none } := by
  refine ⟨?_, ?_, ?_, ?_, ?_, ?_⟩ <;>
    simp [normalizePrice, jsOrS_empty, jsOrS_none]

/-- C3 counterexample: the mobile number "123456789 " (nine digits and a
trailing space) has trimmed length 9, yet validation passes and the login
network request is issued, because the length check runs on the untrimmed
string. -/
theorem short_trimmed_mobile_not_rejected :
    (jsTrim "123456789 ").length < 10 ∧
    validateInputs "123456789 " "pw" = none ∧
    loginNetworkCalled "123456789 " "pw" = true := by
  refine ⟨by decide, by decide, by decide⟩

/-- C3 amended: for every mobile-number input whose UNTRIMMED length is
less than 10 characters, login submission is rejected locally with one of
the field-specific validation messages and no network request is issued. -/
theorem short_mobile_rejected_locally (m p : String) (h : m.length < 10) :
    (validateInputs m p).isSome = true ∧
    loginNetworkCalled m p = false ∧
    (validateInputs m p).getD "" ∈
      ["Mobile number is required", "Password is required",
        "Please enter a valid mobile number"] := by
  unfold loginNetworkCalled validateInputs
  by_cases h1 : jsTrim m = "" <;> by_cases h2 : jsTrim p = "" <;>
    simp [h1, h2, h]

/-- C3 amended witness at the concrete input "12345" / "pw". -/
theorem short_mobile_rejected_locally_witness :
    "12345".length < 10 ∧
    ((validateInputs "12345" "pw").isSome = true ∧
      loginNetworkCalled "12345" "pw" = false ∧
      (validateInputs "12345" "pw").getD "" ∈
        ["Mobile number is required", "Password is required",
          "Please enter a valid mobile number"]) :=
  ⟨by decide, short_mobile_rejected_locally "12345" "pw" (by decide)⟩

/-- C4: the client navigates exactly when the response object is truthy
and one of status = "success", result = "success", message = "Login
successful" holds, and otherwise shows the response message when present,
else the generic invalid-credentials message; in particular
status = "success" navigates, and message = "Invalid password" shows that
banner without navigating. -/
theorem login_navigation_condition :
    (∀ b : Option LoginResp,
      loginInterpret b =
        if specNavigates b then .navigate else .showError (specShownMessage b)) ∧
    loginInterpret (some ⟨some "success", none, none⟩) = .navigate ∧
    loginInterpret (some ⟨none, none, some "Invalid password"⟩) =
      .showError "Invalid password" := by
  refine ⟨fun b => ?_, by decide, by decide⟩
  cases b with
  | none => rfl
  | some d =>
    cases hm : d.message with
    | none =>
      simp [loginInterpret, specNavigates, specShownMessage, loginSuccessCheck,
        isGiven, jsOrS, hm]
    | some m =>
      by_cases h : m = "" <;>
        simp [loginInterpret, specNavigates, specShownMessage, loginSuccessCheck,
          isGiven, jsOrS, hm, h]

/-- C6: the login and dashboard catch branches classify a caught error
message by the same rule — network substrings first, then timeout, else
generic — each screen then rendering its own message for the category. -/
theorem error_classification_same_rule (msg : String) :
    loginClassify msg = loginMsgOf (specErrCat msg) ∧
    dashClassify msg = dashMsgOf (specErrCat msg) := by
  unfold loginClassify dashClassify specErrCat loginMsgOf dashMsgOf
  by_cases h1 : (hasSubstr msg "Network request failed" || hasSubstr msg "fetch") = true <;>
    by_cases h2 : hasSubstr msg "timeout" = true <;>
      simp_all

lemma dashClassify_nonempty (m : String) : (dashClassify m == "") = false := by
  unfold dashClassify
  by_cases h1 : (hasSubstr m "Network request failed" || hasSubstr m "fetch") = true <;>
    by_cases h2 : hasSubstr m "timeout" = true <;>
      simp [h1, h2]

/-- C2: for every dashboard state, every failed fetch — a thrown
transport error, a non-ok HTTP response, or a falsy response body —
leaves `priceData` and `lastUpdated` unchanged and sets a non-empty error
message, while a successful fetch is the only branch assigning
`lastUpdated`. -/
theorem stale_while_error (s : DashState) (f : Bool) (now : Nat) (m : String)
    (st : Nat) (b : Option PriceResp) (d : PriceResp) :
    ((fetchPricesStep f (.fail m) now s).priceData = s.priceData ∧
      (fetchPricesStep f (.fail m) now s).lastUpdated = s.lastUpdated ∧
      ((fetchPricesStep f (.fail m) now s).error == "") = false) ∧
    ((fetchPricesStep f (.resp false st b) now s).priceData = s.priceData ∧
      (fetchPricesStep f (.resp false st b) now s).lastUpdated = s.lastUpdated ∧
      ((fetchPricesStep f (.resp false st b) now s).error == "") = false) ∧
    ((fetchPricesStep f (.resp true st none) now s).priceData = s.priceData ∧
      (fetchPricesStep f (.resp true st none) now s).lastUpdated = s.lastUpdated ∧
      ((fetchPricesStep f (.resp true st none) now s).error == "") = false) ∧
    (fetchPricesStep f (.resp true st (some d)) now s).lastUpdated = some now ∧
    (fetchPricesStep f (.resp true st (some d)) now s).priceData =
      toPriceData (normalizePrice d) := by
  cases f <;>
    refine ⟨⟨rfl, rfl, dashClassify_nonempty _⟩,
      ⟨rfl, rfl, dashClassify_nonempty _⟩, ⟨rfl, rfl, rfl⟩, rfl, rfl⟩

/-- C7 counterexample: a manual refresh starting while a scheduled fetch
is in flight yields a reachable state with both flags true, so at most
one of loading and refreshing being true fails exactly in the overlap
case the claim includes. -/
theorem overlapping_fetch_sets_both_flags :
    runFlags [DashEvent.startFetch false, DashEvent.startFetch true] = ⟨true, true⟩ ∧
    atMostOneFlag
      (runFlags [DashEvent.startFetch false, DashEvent.startFetch true]) = false := by
  exact ⟨rfl, rfl⟩

lemma seqOK_atMostOne : ∀ (es : List DashEvent) (n : Nat) (s : Flags),
    seqOK es n = true →
    ((n = 0 ∧ s = ⟨false, false⟩) ∨ (n = 1 ∧ atMostOneFlag s = true)) →
    atMostOneFlag (es.foldl flagsStep s) = true := by
  intro es
  induction es with
  | nil =>
    intro n s _ hinv
    rcases hinv with ⟨_, rfl⟩ | ⟨_, h⟩
    · rfl
    · exact h
  | cons e es ih =>
    intro n s hseq hinv
    cases e with
    | startFetch r =>
      simp only [seqOK, Bool.and_eq_true, beq_iff_eq] at hseq
      obtain ⟨hn, hrest⟩ := hseq
      rcases hinv with ⟨_, rfl⟩ | ⟨h1, _⟩
      · have hstep :
            atMostOneFlag (flagsStep ⟨false, false⟩ (DashEvent.startFetch r)) = true := by
          cases r <;> rfl
        simpa [List.foldl] using ih 1 _ hrest (Or.inr ⟨rfl, hstep⟩)
      · omega
    | finishFetch =>
      simp only [seqOK, Bool.and_eq_true, beq_iff_eq] at hseq
      obtain ⟨hn, hrest⟩ := hseq
      simpa [List.foldl, flagsStep] using ih 0 ⟨false, false⟩ hrest (Or.inl ⟨rfl, rfl⟩)

/-- C7 amended: a manual refresh start sets only refreshing, an ordinary
fetch start sets only loading, every fetch completion clears both flags,
and along every trace of NON-overlapping fetches at most one flag is
true; when a scheduled fetch and a manual refresh overlap, both flags can
be true at once (see the counterexample). -/
theorem flags_discipline :
    (∀ s : Flags, (flagsStep s (DashEvent.startFetch true)).loading = s.loading ∧
      (flagsStep s (DashEvent.startFetch true)).refreshing = true) ∧
    (∀ s : Flags, (flagsStep s (DashEvent.startFetch false)).refreshing = s.refreshing ∧
      (flagsStep s (DashEvent.startFetch false)).loading = true) ∧
    (∀ s : Flags, flagsStep s DashEvent.finishFetch = ⟨false, false⟩) ∧
    (∀ es : List DashEvent, seqOK es 0 = true → atMostOneFlag (runFlags es) = true) := by
  refine ⟨fun s => ⟨rfl, rfl⟩, fun s => ⟨rfl, rfl⟩, fun s => rfl, fun es h => ?_⟩
  exact seqOK_atMostOne es 0 ⟨false, false⟩ h (Or.inl ⟨rfl, rfl⟩)

/-- C7 amended witness: a non-overlapping trace with a scheduled fetch
followed by a manual refresh keeps at most one flag set. -/
theorem flags_discipline_witness :
    seqOK [DashEvent.startFetch false, DashEvent.finishFetch,
      DashEvent.startFetch true] 0 = true ∧
    atMostOneFlag (runFlags [DashEvent.startFetch false, DashEvent.finishFetch,
      DashEvent.startFetch true]) = true :=
  ⟨by decide, flags_discipline.2.2.2 _ (by decide)⟩

/-- C8: with the screen mounted forever a fetch call is issued at mount
time 0 and at every positive multiple of 600000 ms, and with the screen
unmounted at time u the timer-driven calls are exactly the positive
multiples of 600000 strictly before u — so no timer-driven fetch call is
observable at or after unmount. -/
theorem mount_timer_schedule (u t : Nat) :
    (dashboardFetchAt none t = true ↔ t = 0 ∨ (0 < t ∧ t % 600000 = 0)) ∧
    (dashboardFetchAt (some u) t = true ↔
      t = 0 ∨ (0 < t ∧ t % 600000 = 0 ∧ t < u)) := by
  unfold dashboardFetchAt setIntervalFires
  constructor <;>
    · simp only [Bool.or_eq_true, Bool.and_eq_true, beq_iff_eq, decide_eq_true_eq]
      tauto

/-- C9: the initial dashboard state renders "0" on every price card, and
in general a falsy snapshot field (absent or empty) renders as "0" —
never "N/A" and never blank. -/
theorem initial_render_zero_fallback :
    renderedPrices initialPriceData = ("0", "0", "0") ∧
    (∀ o : Option String, displayedPrice o = if isGiven o then o.getD "" else "0") ∧
    ((renderedPrices initialPriceData).1 == "N/A") = false ∧
    ((renderedPrices initialPriceData).1 == "") = false := by
  refine ⟨by decide, fun o => ?_, by decide, by decide⟩
  cases o with
  | none => rfl
  | some a => by_cases h : a = "" <;> simp [displayedPrice, jsOrS, isGiven, h]
